import Mathlib

/-!
Verification of the diabetes-prediction pipeline (src/joji.py) against its
natural-language specification.  The script is shallowly embedded: tables are
lists of rows of optional rationals (a `none` cell is pandas `NaN`), the
sklearn `StandardScaler` state is the per-column mean and variance it stores
(`mean_`, `var_`; `scale_` is the square root of the variance), the
`train_test_split` shuffle is a concrete seeded permutation, and the
third-party estimators are opaque function parameters.
-/

namespace Joji

/-! ## Data model: tables (pandas DataFrame) -/

/-- A cell of the data frame: `none` models pandas `NaN`. -/
abbrev Cell := Option ℚ

/-- A row of the data frame, in the fixed 9-column order
`Pregnancies, Glucose, BloodPressure, SkinThickness, Insulin, BMI,
DiabetesPedigreeFunction, Age, Outcome`. -/
abbrev Row := List Cell

/-- A data frame: an ordered list of rows. -/
abbrev Table := List Row

/-- Column indices of `cols_with_zeros = [Glucose, BloodPressure,
SkinThickness, Insulin, BMI]` in the fixed column order of `col_names`. -/
def colsWithZeros : List Nat := [1, 2, 3, 4, 5]

/-- One row of `df[cols_with_zeros].replace(0, np.nan)`: a cell equal to `0`
in one of the five listed columns becomes missing; `j` is the index of the
first cell of the remaining row. -/
def replaceZerosRow : Nat → Row → Row
  | _, [] => []
  | j, c :: cs =>
      (if j ∈ colsWithZeros ∧ c = some 0 then none else c) :: replaceZerosRow (j + 1) cs

/-- The whole-table effect of line 32 of the script:
`df[cols_with_zeros] = df[cols_with_zeros].replace(0, np.nan)`. -/
def replaceZeros (t : Table) : Table :=
  t.map (replaceZerosRow 0)

/-- The values of column `j` of the table. -/
def colCells (t : Table) (j : Nat) : List Cell :=
  t.filterMap (fun r => r.get? j)

/-- The non-missing values of column `j` (pandas skips `NaN` entries). -/
def nonMissing (t : Table) (j : Nat) : List ℚ :=
  (colCells t j).filterMap id

/-- Median of a list of rationals, as pandas computes it: sort ascending,
take the middle element for odd length, the mean of the two middle elements
for even length, and `NaN` (here `none`) for an empty list. -/
def median (xs : List ℚ) : Option ℚ :=
  let s := List.insertionSort (· ≤ ·) xs
  let n := s.length
  if n = 0 then none
  else if n % 2 = 1 then s.get? (n / 2)
  else match s.get? (n / 2 - 1), s.get? (n / 2) with
    | some a, some b => some ((a + b) / 2)
    | _, _ => none

/-- Per-column medians of the non-missing values, as produced by
`df.median()` for the 9 named columns. -/
def tableMedians (t : Table) : List (Option ℚ) :=
  (List.range 9).map (fun j => median (nonMissing t j))

/-- One row of `df.fillna(df.median())`: a missing cell in column `j` is
replaced by that column's median (and stays missing if the median itself is
`NaN`); non-missing cells are unchanged.  `ms` is the per-column median
list. -/
def fillnaRow (ms : List (Option ℚ)) : Nat → Row → Row
  | _, [] => []
  | j, c :: cs =>
      (match c with
        | none => (ms.get? j).getD none
        | some v => some v) :: fillnaRow ms (j + 1) cs

/-- Line 35 of the script: `df.fillna(df.median(), inplace=True)`. -/
def fillna (t : Table) : Table :=
  t.map (fillnaRow (tableMedians t) 0)

/-- The cleaning part of `load_data` (lines 30–37): replace zeros of the five
physiological columns by `NaN`, then fill every `NaN` with its column's
median over the remaining non-missing rows. -/
def prepare (t : Table) : Table :=
  fillna (replaceZeros t)

/-- Result of fetching the remote CSV resource: either the raw table or a
network failure (`urllib.error.URLError`). -/
inductive FetchResult where
  | ok (t : Table)
  | err (msg : String)
deriving DecidableEq

/-- Function `load_data` (lines 19–37): on a fetch failure it reports the
error and returns `None`; on success it returns the cleaned table. -/
def load_data : FetchResult → Option Table
  | .err _ => none
  | .ok t => some (prepare t)

/-! ## Feature scaler (sklearn `StandardScaler`, lines 67–68 and 166) -/

/-- The feature matrix `X` (8 feature columns, `Outcome` dropped). -/
abbrev FeatureMatrix := List (List ℚ)

/-- Learned state of `StandardScaler`: the per-column mean (`mean_`) and
population variance (`var_`); the stored scale is `scale_ = sqrt var_`. -/
structure ScalerState where
  mean : List ℚ
  var : List ℚ
deriving DecidableEq

/-- Arithmetic mean of a list of rationals (`0` for the empty list, matching
the `0/0 = 0` convention of rational division by zero). -/
def qmean (xs : List ℚ) : ℚ := xs.sum / xs.length

/-- Population variance (`ddof = 0`, as `StandardScaler` uses). -/
def qvar (xs : List ℚ) : ℚ := ((xs.map (fun x => (x - qmean xs) ^ 2)).sum) / xs.length

/-- Number of feature columns of the matrix (its rows are rectangular). -/
def numCols (X : FeatureMatrix) : Nat := (X.head?.getD []).length

/-- Column `j` of the feature matrix. -/
def matCol (X : FeatureMatrix) (j : Nat) : List ℚ :=
  X.filterMap (fun r => r.get? j)

/-- The `fit` half of line 68, `scaler.fit_transform(X)`: the state stores
each column's mean and variance of the rows of `X` it was fit on. -/
def fitScaler (X : FeatureMatrix) : ScalerState :=
  { mean := (List.range (numCols X)).map (fun j => qmean (matCol X j)),
    var := (List.range (numCols X)).map (fun j => qvar (matCol X j)) }

/-- The `transform` half (also line 166, `scaler.transform(input_data)`):
elementwise `(x - mean) / sqrt var`.  The codomain is `ℝ` because the scale
`sqrt var` is irrational in general. -/
noncomputable def transformRow (s : ScalerState) (r : List ℚ) : List ℝ :=
  (r.zip (s.mean.zip s.var)).map
    (fun p => ((p.1 : ℝ) - (p.2.1 : ℝ)) / Real.sqrt (p.2.2 : ℝ))

/-- Line 68 exactly: fit the scaler on the full matrix `X`, then transform
the very same matrix with the resulting state. -/
noncomputable def fit_transform (X : FeatureMatrix) : ScalerState × List (List ℝ) :=
  (fitScaler X, X.map (transformRow (fitScaler X)))

/-! ## Train/test split (sklearn `train_test_split`, line 71)

`train_test_split(X_scaled, y, test_size=0.2, random_state=42)` draws one
permutation of the row indices from a PRNG seeded with `random_state`, takes
the first `ceil(0.2 * n)` permuted indices as the Test partition and the rest
as the Train partition, and applies the same index lists to every array it is
given.  The library's Mersenne-Twister generator is modelled by a concrete
linear congruential generator; every property proved below depends only on
the shuffle being a seed-determined permutation, which both generators are. -/

/-- One step of the modelled pseudo-random generator. -/
def lcg (s : Nat) : Nat := (1103515245 * s + 12345) % 2 ^ 31

/-- Fisher–Yates shuffle by repeated removal, with explicit fuel (the fuel is
the list length at the top call, so the `none` branch is unreachable). -/
def shuffleAux (seed : Nat) : Nat → List α → List α
  | 0, _ => []
  | n + 1, xs =>
    match xs.get? (seed % xs.length) with
    | none => []
    | some a => a :: shuffleAux (lcg seed) n (xs.eraseIdx (seed % xs.length))

/-- Seed-determined permutation of a list. -/
def shuffle (seed : Nat) (xs : List α) : List α := shuffleAux seed xs.length xs

/-- Size of the Test partition: `ceil(test_size * n)` with `test_size = 0.2`,
i.e. `ceil(n / 5)`. -/
def nTest (n : Nat) : Nat := (n + 4) / 5

/-- The (Train, Test) index lists for `n` rows: one shuffle of `0..n-1`, the
first `nTest n` permuted indices forming Test and the rest Train. -/
def splitIndices (seed n : Nat) : List Nat × List Nat :=
  ((shuffle seed (List.range n)).drop (nTest n), (shuffle seed (List.range n)).take (nTest n))

/-- Select the rows of `xs` at the given indices, in order. -/
def select (xs : List α) (is : List Nat) : List α := is.filterMap xs.get?

/-- The (Train, Test) row partitions of a single array, as
`train_test_split(..., test_size=0.2, random_state=seed)` produces them. -/
def train_test_split (seed : Nat) (xs : List α) : List α × List α :=
  (select xs (splitIndices seed xs.length).1, select xs (splitIndices seed xs.length).2)

/-! ## Model bank (lines 74–80) -/

/-- Untrained classifier configurations, one constructor per sklearn
estimator used by the script. -/
inductive ClassifierCfg where
  | logisticRegression
  | decisionTree
  | randomForest (nEstimators : Nat)
  | svc (kernel : String) (probability : Bool)
  | adaBoost (stumpMaxDepth : Nat) (nEstimators : Nat)
deriving DecidableEq

/-- The `models` dictionary: five fixed named configurations, in insertion
order. -/
def models : List (String × ClassifierCfg) :=
  [("Logistic Regression", .logisticRegression),
   ("Decision Tree", .decisionTree),
   ("Random Forest", .randomForest 100),
   ("SVM", .svc "linear" true),
   ("AdaBoost", .adaBoost 1 50)]

/-! ## Training and evaluation loop (lines 83–95) -/

/-- A fitted estimator, opaque except for its binary prediction function
(`true` models outcome label `1`). -/
structure FittedModel where
  predict : List ℝ → Bool

/-- Number of positions where both label lists hold the given pair. -/
def countPairs (yt yp : List Bool) (a b : Bool) : Nat :=
  ((yt.zip yp).filter (fun p => p.1 == a && p.2 == b)).length

/-- sklearn `accuracy_score`: fraction of matching labels. -/
def accuracy_score (yt yp : List Bool) : ℚ :=
  (((yt.zip yp).filter (fun p => p.1 == p.2)).length : ℚ) / (yt.length : ℚ)

/-- sklearn `precision_score` (binary, positive class 1; an undefined ratio
is 0, matching the library's zero-division default). -/
def precision_score (yt yp : List Bool) : ℚ :=
  (countPairs yt yp true true : ℚ) / ((countPairs yt yp true true + countPairs yt yp false true : Nat) : ℚ)

/-- sklearn `recall_score` (binary, positive class 1). -/
def recall_score (yt yp : List Bool) : ℚ :=
  (countPairs yt yp true true : ℚ) / ((countPairs yt yp true true + countPairs yt yp true false : Nat) : ℚ)

/-- sklearn `f1_score`: harmonic mean of precision and recall. -/
def f1_score (yt yp : List Bool) : ℚ :=
  2 * precision_score yt yp * recall_score yt yp / (precision_score yt yp + recall_score yt yp)

/-- The four scores stored per model in `results`. -/
structure Metrics where
  accuracy : ℚ
  precision : ℚ
  recallScore : ℚ
  f1 : ℚ
deriving DecidableEq

/-- Training a configuration on scaled features and labels: opaque,
third-party behaviour, passed in as a parameter. -/
abbrev FitFn := ClassifierCfg → List (List ℝ) → List Bool → FittedModel

/-- The loop of lines 85–95: fit each bank model on the Train split, predict
the Test split, store the four metrics keyed by model name, in bank order. -/
def evalModels (fit : FitFn) (Xtr : List (List ℝ)) (ytr : List Bool)
    (Xte : List (List ℝ)) (yte : List Bool) : List (String × Metrics) :=
  models.map (fun nc =>
    (nc.1,
      { accuracy := accuracy_score yte ((Xte.map (fit nc.2 Xtr ytr).predict)),
        precision := precision_score yte ((Xte.map (fit nc.2 Xtr ytr).predict)),
        recallScore := recall_score yte ((Xte.map (fit nc.2 Xtr ytr).predict)),
        f1 := f1_score yte ((Xte.map (fit nc.2 Xtr ytr).predict)) }))

/-! ## Best-model selector (line 98) -/

/-- Python's `max(xs, key=f)` on a non-empty list: scan left to right,
replacing the current maximum only on a strictly greater key, so the first
maximal element wins ties. -/
def pymax (f : α → ℚ) (x : α) (xs : List α) : α :=
  xs.foldl (fun acc y => if f acc < f y then y else acc) x

/-- Python's `max(xs, key=f)`, `none` on the empty list (where the builtin
raises `ValueError`). -/
def maxBy (f : α → ℚ) : List α → Option α
  | [] => none
  | x :: xs => some (pymax f x xs)

/-- Line 98: `best_model_name = max(results, key=lambda x: results[x]["F1-Score"])`,
iterating the results mapping in insertion order. -/
def best_model_name (results : List (String × Metrics)) : Option String :=
  (maxBy (fun p => p.2.f1) results).map (fun p => p.1)

/-! ## Hyperparameter grids (lines 112–128) -/

/-- A hyperparameter value as it appears in the grid dictionaries: an
integer, a rational (Python float), a string, or Python `None`. -/
inductive ParamVal where
  | int (n : Int)
  | rat (q : ℚ)
  | str (s : String)
  | pyNone
deriving DecidableEq

/-- A grid: parameter name to candidate-value list, in dictionary order. -/
abbrev ParamGridSpace := List (String × List ParamVal)

/-- One concrete hyperparameter configuration drawn from a grid. -/
abbrev ParamConfig := List (String × ParamVal)

/-- The `if/elif` chain of lines 112–128 assigning `param_grid` by the
selected model's name; no `else` branch exists, so an unknown name leaves
the variable unassigned (`none`). -/
def param_grid : String → Option ParamGridSpace
  | "Random Forest" =>
      some [("n_estimators", [.int 50, .int 100, .int 200]),
            ("max_depth", [.pyNone, .int 10, .int 20]),
            ("min_samples_split", [.int 2, .int 5, .int 10])]
  | "Decision Tree" =>
      some [("max_depth", [.pyNone, .int 10, .int 20]),
            ("min_samples_split", [.int 2, .int 5, .int 10])]
  | "SVM" =>
      some [("C", [.rat (1/10), .rat 1, .rat 10]),
            ("kernel", [.str "linear", .str "rbf"])]
  | "Logistic Regression" =>
      some [("C", [.rat (1/10), .rat 1, .rat 10])]
  | "AdaBoost" =>
      some [("n_estimators", [.int 50, .int 100, .int 200]),
            ("learning_rate", [.rat (1/10), .rat (1/2), .rat 1])]
  | _ => none

/-- Exhaustive enumeration of a grid's candidate configurations (the
cartesian product of the per-parameter value lists, first parameter varying
slowest). -/
def gridCandidates : ParamGridSpace → List ParamConfig
  | [] => [[]]
  | (k, vs) :: rest => vs.flatMap (fun v => (gridCandidates rest).map (fun c => (k, v) :: c))

/-- Number of cross-validation folds at the call site of line 131
(`GridSearchCV(..., cv=5, ...)`). -/
def gridSearchCvFolds : Nat := 5

/-- Scoring metric at the call site of line 131 (`scoring='f1'`). -/
def gridSearchScoring : String := "f1"

/-- Outcome of `GridSearchCV.fit`: the refit best estimator
(`best_estimator_`), its mean cross-validation score (`best_score_`), and
the winning configuration (`best_params_`). -/
structure GridSearchResult where
  best_estimator : FittedModel
  best_score : ℚ
  best_params : ParamConfig

/-- Modelled from the spec: `GridSearchCV(best_model, param_grid, cv=5,
scoring='f1', n_jobs=-1).fit(X_train, y_train)` — the sklearn search itself
is outside this repository.  `cvF1` gives a configuration's mean 5-fold
cross-validation F1 on the Train data and `refit` trains the estimator with
a configuration on the full Train data; the search exhaustively scores every
candidate of the grid, keeps the first candidate attaining the maximal mean
CV F1, and refits it on the full Train data. -/
def grid_search (cvF1 : ParamConfig → ℚ) (refit : ParamConfig → FittedModel)
    (grid : ParamGridSpace) : Option GridSearchResult :=
  (maxBy cvF1 (gridCandidates grid)).map (fun c => ⟨refit c, cvF1 c, c⟩)

/-! ## Error taxonomy (spec section 7) -/

/-- The spec's five-way error taxonomy; each constructor labels one failing
path of the script (fetch failure at lines 39–41, unassigned grid at line
131, missing model file at line 169, out-of-range input at lines 149–159). -/
inductive AppError where
  | dataUnavailable
  | inputShapeError
  | configurationError
  | modelUnavailable
  | inputRangeError
deriving DecidableEq

/-- The tuning step (lines 110–136): look the selected name up in the grid
chain; an unmatched name leaves `param_grid` unbound and the step fails
(ConfigurationError) instead of skipping tuning; otherwise run the grid
search and return the optimized model with its best score.  The inner
`none` branch requires an empty candidate list and is unreachable for every
grid the chain produces. -/
def tuneStep (name : String) (cvF1 : ParamConfig → ℚ)
    (refit : ParamConfig → FittedModel) : Except AppError (FittedModel × ℚ) :=
  match param_grid name with
  | none => .error .configurationError
  | some g =>
      match grid_search cvF1 refit g with
      | none => .error .configurationError
      | some r => .ok (r.best_estimator, r.best_score)

/-! ## Prediction service (lines 144–175) -/

/-- The 8 raw feature values collected from the user, in widget order. -/
structure RawInput where
  pregnancies : ℚ
  glucose : ℚ
  bloodPressure : ℚ
  skinThickness : ℚ
  insulin : ℚ
  bmi : ℚ
  pedigree : ℚ
  age : ℚ
deriving DecidableEq

/-- Whether every field lies inside the `min_value`/`max_value` bounds of
the `st.number_input` widgets of lines 149–159. -/
def inputInRange (r : RawInput) : Bool :=
  decide (0 ≤ r.pregnancies ∧ r.pregnancies ≤ 20) &&
  decide (0 ≤ r.glucose ∧ r.glucose ≤ 300) &&
  decide (0 ≤ r.bloodPressure ∧ r.bloodPressure ≤ 200) &&
  decide (0 ≤ r.skinThickness ∧ r.skinThickness ≤ 100) &&
  decide (0 ≤ r.insulin ∧ r.insulin ≤ 900) &&
  decide (0 ≤ r.bmi ∧ r.bmi ≤ 70) &&
  decide (0 ≤ r.pedigree ∧ r.pedigree ≤ 3) &&
  decide (0 ≤ r.age ∧ r.age ≤ 120)

/-- The bounds enforcement of the input widgets: a value outside its domain
bounds never reaches the prediction code, surfaced here as an
InputRangeError. -/
def validateInput (r : RawInput) : Except AppError RawInput :=
  if inputInRange r then .ok r else .error .inputRangeError

/-- Line 162: `np.array([[pregnancies, ..., age]])`, the single prediction
record in column order. -/
def inputFeatures (r : RawInput) : List ℚ :=
  [r.pregnancies, r.glucose, r.bloodPressure, r.skinThickness,
   r.insulin, r.bmi, r.pedigree, r.age]

/-- The Predict-button handler (lines 161–175): validate the raw input,
scale it with the scaler state fit during the pipeline (line 166), load the
persisted model (line 169, `none` when `diabetes_model.pkl` is missing or
unreadable), and predict.  Prediction never falls back to a default model:
the only non-error path goes through the loaded model. -/
noncomputable def predictDiabetes (persisted : Option FittedModel) (s : ScalerState)
    (r : RawInput) : Except AppError Bool :=
  match validateInput r with
  | .error e => .error e
  | .ok r =>
      match persisted with
      | none => .error .modelUnavailable
      | some m => .ok (m.predict (transformRow s (inputFeatures r)))

/-! ## The pipeline (Steps 1–4, lines 19–139) -/

/-- The outward result of one training run: the best model's name and
metrics, the tuned cross-validation F1, and the persisted optimized model
(`diabetes_model.pkl`). -/
structure PipelineOutput where
  bestName : String
  bestMetrics : Metrics
  tunedF1 : ℚ
  persisted : FittedModel

/-- Extract the feature matrix `X = data.drop(columns=["Outcome"])` as
rationals (the prepared table of the real dataset has no missing cells; a
residual missing cell would be a float `NaN`, represented by `0` here). -/
def featuresOf (data : Table) : FeatureMatrix :=
  data.map (fun r => (r.take 8).map (fun c => c.getD 0))

/-- Extract the label vector `y = data["Outcome"]` (`true` iff the outcome
cell holds `1`). -/
def labelsOf (data : Table) : List Bool :=
  data.map (fun r => ((r.get? 8).getD none) = some 1)

/-- The whole training pipeline, lines 19–139: load and prepare the data
(halting with DataUnavailable when the fetch failed, lines 39–41), fit the
scaler on the full feature matrix and transform it (line 68), split the
scaled rows and labels once with seed 42 (line 71), train and evaluate the
five bank models (lines 85–95), select the best by F1 (line 98), tune it by
grid search (lines 110–136) and persist the optimized model (line 139).
The two `.error .configurationError` branches for an empty evaluation list
are unreachable because the model bank is non-empty by construction. -/
noncomputable def runPipeline (fit : FitFn) (cvF1 : String → ParamConfig → ℚ)
    (refit : String → ParamConfig → FittedModel) (fetch : FetchResult) :
    Except AppError PipelineOutput :=
  match load_data fetch with
  | none => .error .dataUnavailable
  | some data =>
      let X := featuresOf data
      let y := labelsOf data
      let s := fitScaler X
      let Xscaled := X.map (transformRow s)
      let idx := splitIndices 42 Xscaled.length
      let Xtr := select Xscaled idx.1
      let Xte := select Xscaled idx.2
      let ytr := select y idx.1
      let yte := select y idx.2
      let results := evalModels fit Xtr ytr Xte yte
      match maxBy (fun p => p.2.f1) results with
      | none => .error .configurationError
      | some best =>
          match tuneStep best.1 (cvF1 best.1) (refit best.1) with
          | .error e => .error e
          | .ok tuned => .ok ⟨best.1, best.2, tuned.2, tuned.1⟩

/-! ## Helper lemmas about the shuffle and the split -/

theorem get_cons_eraseIdx_perm (xs : List α) : ∀ (i : Nat) (h : i < xs.length),
    (xs.get ⟨i, h⟩ :: xs.eraseIdx i).Perm xs := by
  induction xs with
  | nil => intro i h; simp at h
  | cons a t ih =>
    intro i h
    cases i with
    | zero => simp [List.eraseIdx]
    | succ i =>
      have ht : i < t.length := Nat.lt_of_succ_lt_succ h
      show (t.get ⟨i, ht⟩ :: a :: t.eraseIdx i).Perm (a :: t)
      exact (List.Perm.swap a (t.get ⟨i, ht⟩) (t.eraseIdx i)).trans ((ih i ht).cons a)

theorem shuffleAux_perm (n : Nat) : ∀ (seed : Nat) (xs : List α), xs.length = n →
    (shuffleAux seed n xs).Perm xs := by
  induction n with
  | zero =>
    intro seed xs h
    rw [List.length_eq_zero] at h
    subst h
    exact List.Perm.refl _
  | succ n ih =>
    intro seed xs h
    have hlt : seed % xs.length < xs.length := Nat.mod_lt _ (by omega)
    have hget : xs.get? (seed % xs.length) = some (xs.get ⟨seed % xs.length, hlt⟩) :=
      (List.get?_eq_some).2 ⟨hlt, rfl⟩
    have hlen : (xs.eraseIdx (seed % xs.length)).length = n := by
      have := List.length_eraseIdx_add_one hlt
      omega
    have hunf : shuffleAux seed (n + 1) xs =
        xs.get ⟨seed % xs.length, hlt⟩ ::
          shuffleAux (lcg seed) n (xs.eraseIdx (seed % xs.length)) := by
      rw [shuffleAux, hget]
    rw [hunf]
    exact ((ih (lcg seed) _ hlen).cons _).trans (get_cons_eraseIdx_perm xs _ hlt)

theorem shuffle_perm (seed : Nat) (xs : List α) : (shuffle seed xs).Perm xs :=
  shuffleAux_perm xs.length seed xs rfl

theorem select_range (xs : List α) : select xs (List.range xs.length) = xs := by
  induction xs with
  | nil => rfl
  | cons a t ih =>
    show select (a :: t) (List.range (t.length + 1)) = a :: t
    have hc : ((a :: t).get? ∘ Nat.succ) = t.get? := funext (fun i => rfl)
    rw [List.range_succ_eq_map]
    show List.filterMap (a :: t).get? (0 :: (List.range t.length).map Nat.succ) = a :: t
    rw [List.filterMap_cons]
    show (a :: List.filterMap (a :: t).get? ((List.range t.length).map Nat.succ)) = a :: t
    rw [List.filterMap_map, hc]
    exact congrArg (a :: ·) ih

theorem select_perm_of_perm (xs : List α) (p : List Nat)
    (h : p.Perm (List.range xs.length)) : (select xs p).Perm xs := by
  have hp := List.Perm.filterMap xs.get? h
  rw [show List.filterMap xs.get? (List.range xs.length) = xs from select_range xs] at hp
  exact hp

theorem length_select (xs : List α) : ∀ (is : List Nat), (∀ i ∈ is, i < xs.length) →
    (select xs is).length = is.length := by
  intro is
  induction is with
  | nil => intro _; rfl
  | cons i t ih =>
    intro h
    have hi : i < xs.length := h i (List.mem_cons_self i t)
    have hget : xs.get? i = some (xs.get ⟨i, hi⟩) := (List.get?_eq_some).2 ⟨hi, rfl⟩
    show (List.filterMap xs.get? (i :: t)).length = t.length + 1
    rw [List.filterMap_cons, hget]
    have := ih (fun j hj => h j (List.mem_cons_of_mem i hj))
    simpa [select] using this

theorem tts_test_append_train_perm (seed : Nat) (xs : List α) :
    ((train_test_split seed xs).2 ++ (train_test_split seed xs).1).Perm xs := by
  have hperm : (shuffle seed (List.range xs.length)).Perm (List.range xs.length) :=
    shuffle_perm seed (List.range xs.length)
  have happ : (train_test_split seed xs).2 ++ (train_test_split seed xs).1 =
      select xs (shuffle seed (List.range xs.length)) := by
    show select xs ((shuffle seed (List.range xs.length)).take (nTest xs.length)) ++
        select xs ((shuffle seed (List.range xs.length)).drop (nTest xs.length)) =
        select xs (shuffle seed (List.range xs.length))
    rw [select, select, select, ← List.filterMap_append, List.take_append_drop]
  rw [happ]
  exact select_perm_of_perm xs _ hperm

theorem splitIndices_disjoint (seed n : Nat) :
    List.Disjoint (splitIndices seed n).1 (splitIndices seed n).2 := by
  have hnd : (shuffle seed (List.range n)).Nodup :=
    (shuffle_perm seed (List.range n)).symm.nodup (List.nodup_range n)
  exact (List.disjoint_take_drop hnd (le_refl (nTest n))).symm

theorem shuffle_range_mem_lt (seed n : Nat) : ∀ i ∈ shuffle seed (List.range n), i < n := by
  intro i hi
  exact List.mem_range.1 ((shuffle_perm seed (List.range n)).mem_iff.1 hi)

theorem shuffle_range_length (seed n : Nat) : (shuffle seed (List.range n)).length = n := by
  rw [(shuffle_perm seed (List.range n)).length_eq, List.length_range]

theorem nTest_le (n : Nat) : nTest n ≤ n := by
  unfold nTest; omega

theorem tts_test_length (seed : Nat) (xs : List α) :
    (train_test_split seed xs).2.length = nTest xs.length := by
  have hmem : ∀ i ∈ (shuffle seed (List.range xs.length)).take (nTest xs.length),
      i < xs.length := fun i hi => shuffle_range_mem_lt seed xs.length i (List.mem_of_mem_take hi)
  show (select xs ((shuffle seed (List.range xs.length)).take (nTest xs.length))).length = _
  rw [length_select xs _ hmem, List.length_take, shuffle_range_length, Nat.min_eq_left (nTest_le _)]

theorem tts_train_length (seed : Nat) (xs : List α) :
    (train_test_split seed xs).1.length = xs.length - nTest xs.length := by
  have hmem : ∀ i ∈ (shuffle seed (List.range xs.length)).drop (nTest xs.length),
      i < xs.length := fun i hi => shuffle_range_mem_lt seed xs.length i (List.mem_of_mem_drop hi)
  show (select xs ((shuffle seed (List.range xs.length)).drop (nTest xs.length))).length = _
  rw [length_select xs _ hmem, List.length_drop, shuffle_range_length]

/-! ## Helper lemmas about the Python max -/

theorem pymax_ge (f : α → ℚ) (xs : List α) : ∀ (x : α),
    f x ≤ f (pymax f x xs) ∧ ∀ y ∈ xs, f y ≤ f (pymax f x xs) := by
  induction xs with
  | nil => intro x; exact ⟨le_refl _, by simp⟩
  | cons y ys ih =>
    intro x
    have hstep : pymax f x (y :: ys) = pymax f (if f x < f y then y else x) ys := rfl
    by_cases hxy : f x < f y
    · rw [hstep, if_pos hxy]
      rcases ih y with ⟨h1, h2⟩
      refine ⟨le_of_lt (lt_of_lt_of_le hxy h1), ?_⟩
      intro z hz
      rcases List.mem_cons.1 hz with rfl | hz'
      · exact h1
      · exact h2 z hz'
    · rw [hstep, if_neg hxy]
      rcases ih x with ⟨h1, h2⟩
      refine ⟨h1, ?_⟩
      intro z hz
      rcases List.mem_cons.1 hz with rfl | hz'
      · exact le_trans (le_of_not_lt hxy) h1
      · exact h2 z hz'

theorem pymax_cases (f : α → ℚ) (xs : List α) : ∀ (x : α),
    pymax f x xs = x ∨ (pymax f x xs ∈ xs ∧ f x < f (pymax f x xs)) := by
  induction xs with
  | nil => intro x; exact Or.inl rfl
  | cons y ys ih =>
    intro x
    have hstep : pymax f x (y :: ys) = pymax f (if f x < f y then y else x) ys := rfl
    by_cases hxy : f x < f y
    · rw [hstep, if_pos hxy]
      rcases ih y with h | ⟨hmem, hlt⟩
      · exact Or.inr ⟨by rw [h]; exact List.mem_cons_self y ys, by rw [h]; exact hxy⟩
      · exact Or.inr ⟨List.mem_cons_of_mem y hmem, lt_trans hxy hlt⟩
    · rw [hstep, if_neg hxy]
      rcases ih x with h | ⟨hmem, hlt⟩
      · exact Or.inl h
      · exact Or.inr ⟨List.mem_cons_of_mem y hmem, hlt⟩

theorem find_pymax (f : α → ℚ) (xs : List α) : ∀ (x : α),
    (x :: xs).find? (fun z => decide (f (pymax f x xs) ≤ f z)) = some (pymax f x xs) := by
  induction xs with
  | nil =>
    intro x
    simp [pymax, List.find?]
  | cons y ys ih =>
    intro x
    have hstep : pymax f x (y :: ys) = pymax f (if f x < f y then y else x) ys := rfl
    by_cases hxy : f x < f y
    · rw [hstep, if_pos hxy]
      have hb := (pymax_ge f ys y).1
      have hx : ¬ (f (pymax f y ys) ≤ f x) := not_le.2 (lt_of_lt_of_le hxy hb)
      rw [List.find?_cons, decide_eq_false hx]
      exact ih y
    · rw [hstep, if_neg hxy]
      rcases pymax_cases f ys x with heq | ⟨hmem, hlt⟩
      · rw [heq, List.find?_cons, decide_eq_true (le_refl (f x))]
      · have hpx : ¬ (f (pymax f x ys) ≤ f x) := not_le.2 hlt
        have hpy : ¬ (f (pymax f x ys) ≤ f y) :=
          not_le.2 (lt_of_le_of_lt (le_of_not_lt hxy) hlt)
        have hihx := ih x
        rw [List.find?_cons, decide_eq_false hpx] at hihx
        rw [List.find?_cons, decide_eq_false hpx, List.find?_cons, decide_eq_false hpy]
        exact hihx

theorem maxBy_spec (f : α → ℚ) (l : List α) (b : α) (hb : maxBy f l = some b) :
    b ∈ l ∧ (∀ y ∈ l, f y ≤ f b) ∧ l.find? (fun z => decide (f b ≤ f z)) = some b := by
  cases l with
  | nil => exact absurd hb (by simp [maxBy])
  | cons x xs =>
    have hb' : pymax f x xs = b := by
      have : some (pymax f x xs) = some b := hb
      exact Option.some.inj this
    subst hb'
    refine ⟨?_, ?_, find_pymax f xs x⟩
    · rcases pymax_cases f xs x with h | ⟨hmem, _⟩
      · rw [h]; exact List.mem_cons_self x xs
      · exact List.mem_cons_of_mem x hmem
    · intro y hy
      rcases List.mem_cons.1 hy with rfl | hy'
      · exact (pymax_ge f xs y).1
      · exact (pymax_ge f xs x).2 y hy'

/-! ## Helper lemmas about data preparation -/

theorem replaceZerosRow_get? (r : Row) : ∀ (j k : Nat),
    (replaceZerosRow j r).get? k =
      (r.get? k).map (fun c => if (j + k) ∈ colsWithZeros ∧ c = some 0 then none else c) := by
  induction r with
  | nil => intro j k; simp [replaceZerosRow]
  | cons c cs ih =>
    intro j k
    cases k with
    | zero => simp [replaceZerosRow]
    | succ k =>
      have harith : j + (k + 1) = (j + 1) + k := by omega
      show (replaceZerosRow (j + 1) cs).get? k = _
      rw [ih (j + 1) k, harith]
      rfl

theorem fillnaRow_get? (ms : List (Option ℚ)) (r : Row) : ∀ (j k : Nat),
    (fillnaRow ms j r).get? k =
      (r.get? k).map (fun c =>
        match c with
        | none => (ms.get? (j + k)).getD none
        | some v => some v) := by
  induction r with
  | nil => intro j k; simp [fillnaRow]
  | cons c cs ih =>
    intro j k
    cases k with
    | zero =>
      cases c with
      | none => simp [fillnaRow]
      | some v => simp [fillnaRow]
    | succ k =>
      have harith : j + (k + 1) = (j + 1) + k := by omega
      show (fillnaRow ms (j + 1) cs).get? k = _
      rw [ih (j + 1) k, harith]
      rfl

/-! ## Claim C1: where the scaler state is fit -/

/-- A one-feature matrix on which fitting the scaler on all rows and fitting
it on the Train partition only give different states (the full-data mean is
20, every 4-row subset's mean is 0 or 25). -/
def leakX : FeatureMatrix := [[0], [0], [0], [0], [100]]

/-- Claim C1, counterexample: the scaler state produced by line 68
(`scaler.fit_transform(X)`) at the concrete matrix `leakX` is NOT the state
obtained by fitting on the Train partition of the 80/20 split only — the
scaler is fit before the split, on Train and Test rows together, so the
claim "learned from the Train features only" is false on the code. -/
theorem scaler_not_fit_on_train_only :
    (fit_transform leakX).1 ≠ fitScaler (train_test_split 42 leakX).1 := by
  have hsplit : train_test_split 42 leakX = ([[100], [0], [0], [0]], [[(0 : ℚ)]]) := rfl
  have hfull : (fit_transform leakX).1.mean = [20] := by
    show (fitScaler leakX).mean = [20]
    norm_num [fitScaler, leakX, numCols, matCol, qmean, List.range_succ, List.filterMap]
  have htrain : (fitScaler (train_test_split 42 leakX).1).mean = [25] := by
    rw [hsplit]
    norm_num [fitScaler, numCols, matCol, qmean, List.range_succ, List.filterMap]
  intro h
  rw [h, htrain] at hfull
  have h2520 : (25 : ℚ) = 20 := congrArg (fun l => l.headD 0) hfull
  norm_num at h2520

/-- Claim C1, amended: the scaler state is learned exactly once, from the
full prepared feature matrix (the union of the future Train and Test rows,
before the split); it is never refit, and that very same state is applied
(subtract mean, divide by std) to every row entering Train or Test — the
split merely repartitions the rows already scaled with it — and to every
later single prediction input (line 166). -/
theorem scaler_fit_once_applied_everywhere (X : FeatureMatrix) (input : List ℚ) :
    (fit_transform X).1 = fitScaler X ∧
    (fit_transform X).2 = X.map (transformRow (fitScaler X)) ∧
    ((train_test_split 42 (fit_transform X).2).2 ++
        (train_test_split 42 (fit_transform X).2).1).Perm
      (X.map (transformRow (fitScaler X))) ∧
    transformRow (fit_transform X).1 input = transformRow (fitScaler X) input :=
  ⟨rfl, rfl, tts_test_append_train_perm 42 (fit_transform X).2, rfl⟩

/-! ## Claim C3: the best-model selector -/

/-- Claim C3: whenever line 98's `max(results, key=...)` returns an entry
`b` of the evaluation-results mapping, `b` belongs to the mapping, its F1
score is greater than or equal to every other entry's F1, and `b` is the
first entry in iteration order attaining the maximal F1 (no earlier entry
reaches it); `best_model_name` is its name. -/
theorem best_selector_max_f1 (results : List (String × Metrics))
    (b : String × Metrics) (hb : maxBy (fun p => p.2.f1) results = some b) :
    b ∈ results ∧ (∀ p ∈ results, p.2.f1 ≤ b.2.f1) ∧
    results.find? (fun p => decide (b.2.f1 ≤ p.2.f1)) = some b ∧
    best_model_name results = some b.1 := by
  obtain ⟨h1, h2, h3⟩ := maxBy_spec (fun p => p.2.f1) results b hb
  refine ⟨h1, h2, h3, ?_⟩
  rw [best_model_name, hb]
  rfl

/-- Witness for Claim C3 at a concrete results mapping with a tied maximal
F1: the second entry (the first of the two maximal ones) wins. -/
theorem best_selector_max_f1_witness :
    (("Decision Tree", Metrics.mk 0 0 0 (3/4)) ∈
        [("Logistic Regression", Metrics.mk 1 1 1 (1/2)),
         ("Decision Tree", Metrics.mk 0 0 0 (3/4)),
         ("Random Forest", Metrics.mk 0 0 0 (3/4))] ∧
      (∀ p ∈ [("Logistic Regression", Metrics.mk 1 1 1 (1/2)),
              ("Decision Tree", Metrics.mk 0 0 0 (3/4)),
              ("Random Forest", Metrics.mk 0 0 0 (3/4))],
          p.2.f1 ≤ ((3 : ℚ)/4)) ∧
      List.find? (fun p => decide (((3 : ℚ)/4) ≤ p.2.f1))
          [("Logistic Regression", Metrics.mk 1 1 1 (1/2)),
           ("Decision Tree", Metrics.mk 0 0 0 (3/4)),
           ("Random Forest", Metrics.mk 0 0 0 (3/4))] =
        some ("Decision Tree", Metrics.mk 0 0 0 (3/4)) ∧
      best_model_name
          [("Logistic Regression", Metrics.mk 1 1 1 (1/2)),
           ("Decision Tree", Metrics.mk 0 0 0 (3/4)),
           ("Random Forest", Metrics.mk 0 0 0 (3/4))] =
        some "Decision Tree") :=
  best_selector_max_f1
    [("Logistic Regression", Metrics.mk 1 1 1 (1/2)),
     ("Decision Tree", Metrics.mk 0 0 0 (3/4)),
     ("Random Forest", Metrics.mk 0 0 0 (3/4))]
    ("Decision Tree", Metrics.mk 0 0 0 (3/4)) (by norm_num [maxBy, pymax, List.foldl])

/-! ## Claim C4: the train/test split -/

/-- Claim C4: the prepared rows are split into Train and Test partitions
whose underlying index sets are disjoint, which together are exactly the
input rows (Test followed by Train is a permutation of the input), whose
sizes are the 80/20 proportion (`ceil(n/5)` Test rows, the rest Train), and
the split is a pure function of the seed: the same seed over the same data
always yields the identical split. -/
theorem split_disjoint_proportion_deterministic (seed : Nat) (xs : List α) :
    List.Disjoint (splitIndices seed xs.length).1 (splitIndices seed xs.length).2 ∧
    ((train_test_split seed xs).2 ++ (train_test_split seed xs).1).Perm xs ∧
    (train_test_split seed xs).2.length = nTest xs.length ∧
    (train_test_split seed xs).1.length = xs.length - nTest xs.length ∧
    (∀ seed2, seed2 = seed → train_test_split seed2 xs = train_test_split seed xs) :=
  ⟨splitIndices_disjoint seed xs.length, tts_test_append_train_perm seed xs,
   tts_test_length seed xs, tts_train_length seed xs,
   fun _ h => by rw [h]⟩

/-- Witness for Claim C4 at seed 42 on a concrete 5-row dataset (one Test
row, four Train rows). -/
theorem split_disjoint_proportion_deterministic_witness :
    List.Disjoint (splitIndices 42 ([10, 20, 30, 40, 50] : List ℚ).length).1
        (splitIndices 42 ([10, 20, 30, 40, 50] : List ℚ).length).2 ∧
      ((train_test_split 42 ([10, 20, 30, 40, 50] : List ℚ)).2 ++
          (train_test_split 42 ([10, 20, 30, 40, 50] : List ℚ)).1).Perm
        ([10, 20, 30, 40, 50] : List ℚ) ∧
      (train_test_split 42 ([10, 20, 30, 40, 50] : List ℚ)).2.length =
        nTest ([10, 20, 30, 40, 50] : List ℚ).length ∧
      (train_test_split 42 ([10, 20, 30, 40, 50] : List ℚ)).1.length =
        ([10, 20, 30, 40, 50] : List ℚ).length -
          nTest ([10, 20, 30, 40, 50] : List ℚ).length ∧
      (∀ seed2, seed2 = 42 →
        train_test_split seed2 ([10, 20, 30, 40, 50] : List ℚ) =
          train_test_split 42 ([10, 20, 30, 40, 50] : List ℚ)) :=
  split_disjoint_proportion_deterministic 42 ([10, 20, 30, 40, 50] : List ℚ)

/-! ## Claim C6: unknown model name fails the tuning step -/

/-- Claim C6: if the selected model's name matches no entry of the grid
chain of lines 112–128 (`param_grid` stays unassigned), the tuning step
fails fast with a ConfigurationError instead of silently skipping tuning. -/
theorem tune_fails_on_unknown_model (name : String) (cvF1 : ParamConfig → ℚ)
    (refit : ParamConfig → FittedModel) (h : param_grid name = none) :
    tuneStep name cvF1 refit = .error .configurationError := by
  rw [tuneStep, h]

/-- Witness for Claim C6 at the concrete unknown model name "KNN". -/
theorem tune_fails_on_unknown_model_witness :
    tuneStep "KNN" (fun _ => 0) (fun _ => FittedModel.mk (fun _ => false)) =
      .error .configurationError :=
  tune_fails_on_unknown_model "KNN" (fun _ => 0)
    (fun _ => FittedModel.mk (fun _ => false)) rfl

/-! ## Claim C7: a fetch failure halts the whole pipeline -/

/-- Claim C7: when the remote CSV resource cannot be retrieved, the pipeline
run results in the DataUnavailable error and nothing else — no scaling,
training, tuning, persisting or prediction output is produced, whatever the
training and tuning collaborators would have computed. -/
theorem pipeline_halts_without_data (fit : FitFn)
    (cvF1 : String → ParamConfig → ℚ)
    (refit : String → ParamConfig → FittedModel) (msg : String) :
    runPipeline fit cvF1 refit (.err msg) = .error .dataUnavailable := rfl

/-! ## Claim C2: imputation of zeros in the five physiological columns -/

/-- Claim C2: for every row of the prepared dataset and each of the five
columns Glucose, BloodPressure, SkinThickness, Insulin, BMI, preparation
replaces a cell equal to 0 by that column's median computed over the
remaining non-missing rows, and — assuming that median is nonzero — no cell
of those five columns is 0 or missing in the prepared output. -/
theorem prepare_imputes_zeros (t : Table) (i j : Nat) (hj : j ∈ colsWithZeros)
    (r0 : Row) (hrow : t.get? i = some r0) (m : ℚ)
    (hm : median (nonMissing (replaceZeros t) j) = some m) (hm0 : m ≠ 0) :
    ∃ r : Row, (prepare t).get? i = some r ∧
      (r0.get? j = some (some 0) → r.get? j = some (some m)) ∧
      (∀ c, r.get? j = some c → ∃ v : ℚ, c = some v ∧ v ≠ 0) := by
  have hj9 : j < 9 := by
    have hj' := hj
    simp [colsWithZeros] at hj'
    omega
  have hms : (tableMedians (replaceZeros t)).get? j =
      some (median (nonMissing (replaceZeros t) j)) := by
    unfold tableMedians
    rw [List.get?_map, List.get?_range hj9]
    rfl
  refine ⟨fillnaRow (tableMedians (replaceZeros t)) 0 (replaceZerosRow 0 r0), ?_, ?_, ?_⟩
  · show (fillna (replaceZeros t)).get? i = _
    unfold fillna replaceZeros
    rw [List.get?_map, List.get?_map, hrow]
    rfl
  · intro hz
    rw [fillnaRow_get?, replaceZerosRow_get?, hz]
    show some (match (if (0 + j) ∈ colsWithZeros ∧ (some 0 : Cell) = some 0
        then none else some 0 : Cell) with
      | none => ((tableMedians (replaceZeros t)).get? (0 + j)).getD none
      | some v => some v) = some (some m)
    rw [if_pos ⟨by simpa using hj, rfl⟩]
    rw [Nat.zero_add, hms, hm]
    rfl
  · intro c hc
    rw [fillnaRow_get?, replaceZerosRow_get?] at hc
    cases hc0 : r0.get? j with
    | none => rw [hc0] at hc; simp at hc
    | some c0 =>
      rw [hc0] at hc
      cases c0 with
      | none =>
        simp only [Option.map_some', ite_self, Nat.zero_add, hms, hm,
          Option.getD_some, Option.some.injEq] at hc
        exact ⟨m, hc.symm, hm0⟩
      | some v =>
        by_cases hv : v = 0
        · subst hv
          simp only [Option.map_some', Nat.zero_add, hj, eq_self_iff_true,
            and_self, and_true, true_and, if_true, hms, hm, Option.getD_some,
            Option.some.injEq] at hc
          exact ⟨m, hc.symm, hm0⟩
        · have hif : (if (0 + j) ∈ colsWithZeros ∧ (some v : Cell) = some 0
              then (none : Cell) else some v) = some v :=
            if_neg (fun hand => hv (Option.some.inj hand.2))
          simp only [Option.map_some'] at hc
          rw [hif] at hc
          simp only [Option.some.injEq] at hc
          exact ⟨v, hc.symm, hv⟩

/-- Two-row table exercising Claim C2: row 0 has a 0 Glucose cell; the
Glucose median over the remaining non-missing rows is 5. -/
def zeroTable : Table :=
  [[some 1, some 0, some 1, some 1, some 1, some 1, some 1, some 1, some 1],
   [some 1, some 5, some 2, some 2, some 2, some 2, some 1, some 1, some 0]]

/-- Witness for Claim C2 at the concrete table `zeroTable`, row 0, Glucose
column: the 0 cell is imputed to the median 5 and the prepared cell is
nonzero and non-missing. -/
theorem prepare_imputes_zeros_witness :
    ∃ r : Row, (prepare zeroTable).get? 0 = some r ∧
      (([some 1, some 0, some 1, some 1, some 1, some 1, some 1, some 1,
          some 1] : Row).get? 1 = some (some 0) → r.get? 1 = some (some 5)) ∧
      (∀ c, r.get? 1 = some c → ∃ v : ℚ, c = some v ∧ v ≠ 0) :=
  prepare_imputes_zeros zeroTable 0 1 (by decide)
    [some 1, some 0, some 1, some 1, some 1, some 1, some 1, some 1, some 1]
    rfl 5 rfl (by norm_num)

/-! ## Claim C5: the hyperparameter tuner -/

/-- The grid catalogue exactly as the spec's section 4.6 table states it,
transcribed from the spec for comparison with the code's if/elif chain (the
spec's tree count and rounds are `n_estimators`, unlimited depth is Python
`None`, min split is `min_samples_split`, learning rate is
`learning_rate`). -/
def specGridTable : List (String × ParamGridSpace) :=
  [("Random Forest",
      [("n_estimators", [.int 50, .int 100, .int 200]),
       ("max_depth", [.pyNone, .int 10, .int 20]),
       ("min_samples_split", [.int 2, .int 5, .int 10])]),
   ("Decision Tree",
      [("max_depth", [.pyNone, .int 10, .int 20]),
       ("min_samples_split", [.int 2, .int 5, .int 10])]),
   ("SVM",
      [("C", [.rat (1/10), .rat 1, .rat 10]),
       ("kernel", [.str "linear", .str "rbf"])]),
   ("Logistic Regression",
      [("C", [.rat (1/10), .rat 1, .rat 10])]),
   ("AdaBoost",
      [("n_estimators", [.int 50, .int 100, .int 200]),
       ("learning_rate", [.rat (1/10), .rat (1/2), .rat 1])])]

/-- Claim C5: the tuner searches exactly the model-specific grids of the
spec's table (the code's chain assigns, for each of the five names, the very
grid of the table — in particular for Random Forest tree count
{50,100,200}, max depth {unlimited,10,20}, min split {2,5,10}); the call
site fixes 5 cross-validation folds and F1 scoring; and the grid search is
an exhaustive maximization: its winner belongs to the candidate set, every
candidate scores no better, the returned estimator is the winner refit on
the full Train data, and the returned score is the winner's mean
cross-validation F1. -/
theorem tuner_searches_spec_grids :
    (∀ p ∈ specGridTable, param_grid p.1 = some p.2) ∧
    gridSearchCvFolds = 5 ∧ gridSearchScoring = "f1" ∧
    (∀ (cvF1 : ParamConfig → ℚ) (refit : ParamConfig → FittedModel)
       (g : ParamGridSpace) (r : GridSearchResult),
       grid_search cvF1 refit g = some r →
       r.best_params ∈ gridCandidates g ∧
       (∀ c ∈ gridCandidates g, cvF1 c ≤ cvF1 r.best_params) ∧
       r.best_estimator = refit r.best_params ∧
       r.best_score = cvF1 r.best_params) := by
  refine ⟨?_, rfl, rfl, ?_⟩
  · intro p hp
    simp only [specGridTable, List.mem_cons, List.not_mem_nil, or_false] at hp
    rcases hp with rfl | rfl | rfl | rfl | rfl <;> rfl
  · intro cvF1 refit g r hr
    unfold grid_search at hr
    cases hmb : maxBy cvF1 (gridCandidates g) with
    | none => rw [hmb] at hr; exact absurd hr (by simp)
    | some c =>
      rw [hmb] at hr
      have hrc : GridSearchResult.mk (refit c) (cvF1 c) c = r := Option.some.inj hr
      obtain ⟨h1, h2, _⟩ := maxBy_spec cvF1 (gridCandidates g) c hmb
      rw [← hrc]
      exact ⟨h1, h2, rfl, rfl⟩

/-- Witness for Claim C5: the Random Forest grid entry of the spec table,
and a concrete exhaustive search over the Logistic Regression grid with a
constant scoring function, whose winner is the first of the 3 candidates. -/
theorem tuner_searches_spec_grids_witness :
    param_grid "Random Forest" =
      some [("n_estimators", [.int 50, .int 100, .int 200]),
            ("max_depth", [.pyNone, .int 10, .int 20]),
            ("min_samples_split", [.int 2, .int 5, .int 10])] ∧
    ([("C", ParamVal.rat (1/10))] ∈
      gridCandidates [("C", [.rat (1/10), .rat 1, .rat 10])]) :=
  ⟨tuner_searches_spec_grids.1
      ("Random Forest",
        [("n_estimators", [.int 50, .int 100, .int 200]),
         ("max_depth", [.pyNone, .int 10, .int 20]),
         ("min_samples_split", [.int 2, .int 5, .int 10])])
      (List.mem_cons_self _ _),
   (tuner_searches_spec_grids.2.2.2 (fun _ => 0)
      (fun _ => FittedModel.mk (fun _ => false))
      [("C", [.rat (1/10), .rat 1, .rat 10])]
      (GridSearchResult.mk (FittedModel.mk (fun _ => false)) 0
        [("C", ParamVal.rat (1/10))]) rfl).1⟩

/-! ## Claim C8: prediction requires the persisted model -/

/-- Claim C8: on a prediction request with an in-range input, a missing or
unreadable persisted model file makes the Prediction Service fail with
ModelUnavailable — an error of that prediction call only, which touches no
pipeline state — and a prediction label is only ever produced by a model
actually loaded from the persisted file (never an untrained or default
model). -/
theorem prediction_requires_persisted_model (s : ScalerState) (r : RawInput)
    (p : Option FittedModel) :
    (p = none → inputInRange r = true →
      predictDiabetes p s r = .error .modelUnavailable) ∧
    (∀ b, predictDiabetes p s r = .ok b →
      ∃ m, p = some m ∧ b = m.predict (transformRow s (inputFeatures r))) := by
  constructor
  · rintro rfl hr
    have hval : validateInput r = .ok r := by
      unfold validateInput
      rw [if_pos hr]
    unfold predictDiabetes
    rw [hval]
  · intro b hb
    cases p with
    | none =>
      cases hval : validateInput r with
      | error e =>
        have hpd : predictDiabetes none s r = .error e := by
          unfold predictDiabetes
          rw [hval]
        rw [hpd] at hb
        exact absurd hb (by simp)
      | ok r2 =>
        have hpd : predictDiabetes none s r = .error .modelUnavailable := by
          unfold predictDiabetes
          rw [hval]
        rw [hpd] at hb
        exact absurd hb (by simp)
    | some m =>
      cases hval : validateInput r with
      | error e =>
        have hpd : predictDiabetes (some m) s r = .error e := by
          unfold predictDiabetes
          rw [hval]
        rw [hpd] at hb
        exact absurd hb (by simp)
      | ok r2 =>
        have hr2 : r2 = r := by
          unfold validateInput at hval
          by_cases hr : inputInRange r
          · rw [if_pos hr] at hval
            exact (Except.ok.inj hval).symm
          · rw [if_neg hr] at hval
            cases hval
        have hpd : predictDiabetes (some m) s r =
            .ok (m.predict (transformRow s (inputFeatures r2))) := by
          unfold predictDiabetes
          rw [hval]
        rw [hpd] at hb
        exact ⟨m, rfl, by rw [← Except.ok.inj hb, hr2]⟩

/-- Witness for Claim C8: with an all-zero (in-range) input and no persisted
model file, prediction fails with ModelUnavailable. -/
theorem prediction_requires_persisted_model_witness :
    predictDiabetes none (ScalerState.mk [] []) (RawInput.mk 0 0 0 0 0 0 0 0) =
      .error .modelUnavailable :=
  (prediction_requires_persisted_model (ScalerState.mk [] [])
    (RawInput.mk 0 0 0 0 0 0 0 0) none).1 rfl (by decide)

/-! ## Claim C9: out-of-range inputs fail fast -/

/-- Claim C9: if any of the 8 raw feature values lies outside its domain
bounds (Pregnancies in [0,20], Glucose in [0,300], BloodPressure in
[0,200], SkinThickness in [0,100], Insulin in [0,900], BMI in [0,70],
Pedigree in [0,3], Age in [0,120]), the input validation rejects it with an
InputRangeError and every prediction request on it fails fast with that
error, whatever the model and scaler state. -/
theorem out_of_range_input_fails (r : RawInput)
    (h : ¬ ((0 ≤ r.pregnancies ∧ r.pregnancies ≤ 20) ∧
            (0 ≤ r.glucose ∧ r.glucose ≤ 300) ∧
            (0 ≤ r.bloodPressure ∧ r.bloodPressure ≤ 200) ∧
            (0 ≤ r.skinThickness ∧ r.skinThickness ≤ 100) ∧
            (0 ≤ r.insulin ∧ r.insulin ≤ 900) ∧
            (0 ≤ r.bmi ∧ r.bmi ≤ 70) ∧
            (0 ≤ r.pedigree ∧ r.pedigree ≤ 3) ∧
            (0 ≤ r.age ∧ r.age ≤ 120))) :
    validateInput r = .error .inputRangeError ∧
    ∀ (p : Option FittedModel) (s : ScalerState),
      predictDiabetes p s r = .error .inputRangeError := by
  have hir : inputInRange r = false := by
    rcases Bool.eq_false_or_eq_true (inputInRange r) with h1 | h0
    case inr => exact h0
    case inl =>
      exfalso
      apply h
      simp only [inputInRange, Bool.and_eq_true, decide_eq_true_eq] at h1
      tauto
  have hval : validateInput r = .error .inputRangeError := by
    unfold validateInput
    rw [hir]
    rfl
  refine ⟨hval, ?_⟩
  intro p s
  unfold predictDiabetes
  rw [hval]

/-- Witness for Claim C9 at the concrete out-of-range input with Glucose
301 (all other fields in range). -/
theorem out_of_range_input_fails_witness :
    validateInput (RawInput.mk 1 301 70 20 80 25 (1/2) 30) =
        .error .inputRangeError ∧
      ∀ (p : Option FittedModel) (s : ScalerState),
        predictDiabetes p s (RawInput.mk 1 301 70 20 80 25 (1/2) 30) =
          .error .inputRangeError :=
  out_of_range_input_fails (RawInput.mk 1 301 70 20 80 25 (1/2) 30)
    (by intro hcon; exact absurd hcon.2.1.2 (by norm_num))

/-! ## Claim C10: every bank model has a grid -/

/-- Claim C10: every name of the five-entry model bank is assigned a
hyperparameter grid by the chain of lines 112–128, and whenever the best
model is selected from the bank's evaluation results its grid exists — the
no-grid fallthrough (the unbound `param_grid`) is unreachable for a Model
Bank selection. -/
theorem model_bank_grids_total :
    (∀ p ∈ models, (param_grid p.1).isSome = true) ∧
    (∀ (fit : FitFn) (Xtr : List (List ℝ)) (ytr : List Bool)
       (Xte : List (List ℝ)) (yte : List Bool) (b : String × Metrics),
       maxBy (fun p => p.2.f1) (evalModels fit Xtr ytr Xte yte) = some b →
       (param_grid b.1).isSome = true) := by
  constructor
  · intro p hp
    simp only [models, List.mem_cons, List.not_mem_nil, or_false] at hp
    rcases hp with rfl | rfl | rfl | rfl | rfl <;> rfl
  · intro fit Xtr ytr Xte yte b hb
    have hmem := (maxBy_spec (fun p => p.2.f1) _ b hb).1
    unfold evalModels at hmem
    rcases List.mem_map.1 hmem with ⟨nc, hnc, heq⟩
    have hname : b.1 = nc.1 := by rw [← heq]
    have h5 : nc.1 = "Logistic Regression" ∨ nc.1 = "Decision Tree" ∨
        nc.1 = "Random Forest" ∨ nc.1 = "SVM" ∨ nc.1 = "AdaBoost" := by
      simp only [models, List.mem_cons, List.not_mem_nil, or_false] at hnc
      rcases hnc with rfl | rfl | rfl | rfl | rfl
      · exact Or.inl rfl
      · exact Or.inr (Or.inl rfl)
      · exact Or.inr (Or.inr (Or.inl rfl))
      · exact Or.inr (Or.inr (Or.inr (Or.inl rfl)))
      · exact Or.inr (Or.inr (Or.inr (Or.inr rfl)))
    rw [hname]
    rcases h5 with h | h | h | h | h <;> rw [h] <;> rfl

/-- Witness for Claim C10: the Random Forest bank entry has a grid, and on
a concrete (empty-data, constant-model) evaluation run the selected best
model's grid exists. -/
theorem model_bank_grids_total_witness :
    (param_grid "Random Forest").isSome = true ∧
    (param_grid "Logistic Regression").isSome = true := by
  constructor
  · exact model_bank_grids_total.1 ("Random Forest", .randomForest 100) (by decide)
  · refine model_bank_grids_total.2 (fun _ _ _ => FittedModel.mk (fun _ => false))
      [] [] [] [] ("Logistic Regression", Metrics.mk 0 0 0 0) ?_
    have hev : evalModels (fun _ _ _ => FittedModel.mk (fun _ => false)) [] [] [] [] =
        models.map (fun nc => (nc.1, Metrics.mk 0 0 0 0)) := by
      norm_num [evalModels, accuracy_score, precision_score, recall_score,
        f1_score, countPairs]
    rw [hev]
    norm_num [models, maxBy, pymax, List.foldl]

end Joji
